import Mathlib

/-!
Shallow embedding of the classroom-economy analytics engine
(`app/models.py` and `app/utils/analytics_engine.py`).

Modelling conventions:
- Python floats are modelled as rationals (`ℚ`); all arithmetic the source
  performs on floats is exact here.
- `round(x, 2)` / `round(x, 1)` are modelled as rounding to the nearest
  multiple of 1/100 resp. 1/10 (Python uses banker's rounding on floats; no
  statement below depends on tie behaviour, both sides of every comparison
  use the same rounding function).
- Timestamps are instants measured in integer seconds; `timedelta.days` is
  floor division by 86400, matching Python semantics.
- Database tables are lists of rows held in a `DBState`; SQLAlchemy
  `query(...).first()` without an ORDER BY is modelled as the first matching
  row in table (insertion) order; `.all()` is the matching sublist.
- Python truthiness of optional arguments is modelled explicitly: `None`,
  `0` and the empty string are falsy.
-/

/-- Round a rational to 2 decimal places (models Python `round(x, 2)`). -/
def round2 (x : ℚ) : ℚ := (round (x * 100) : ℤ) / 100

/-- Round a rational to 1 decimal place (models Python `round(x, 1)`). -/
def round1 (x : ℚ) : ℚ := (round (x * 10) : ℤ) / 10

/-- Python truthiness of an optional string: `None` and `""` are falsy. -/
def pyTruthyStr : Option String → Bool
  | none => false
  | some s => !(s == "")

/-- Python truthiness of an optional integer id: `None` and `0` are falsy. -/
def pyTruthyNat : Option Nat → Bool
  | none => false
  | some n => !(n == 0)

/-- Row of the `transaction` table (monetary ledger event, `models.py`). -/
structure Transaction where
  student_id : Nat
  teacher_id : Option Nat
  join_code : Option String
  amount : ℚ
  timestamp : Int
  account_type : String
  is_void : Bool
  deriving DecidableEq

/-- Row of the `tap_events` table (presence event, `models.py`). -/
structure TapEvent where
  student_id : Nat
  join_code : Option String
  timestamp : Int
  is_deleted : Bool
  deriving DecidableEq

/-- Row of the `students` table (only the id is relevant to the engine;
a student's `transactions` relationship is recovered from the global
transaction table by `student_id`). -/
structure Student where
  id : Nat
  deriving DecidableEq

/-- Row of the `student_blocks` table (per-student per-period enrollment). -/
structure StudentBlock where
  student_id : Nat
  join_code : Option String
  deriving DecidableEq

/-- Row of the `payroll_settings` table (fields used by the engine). -/
structure PayrollSettings where
  id : Nat
  teacher_id : Nat
  block : Option String
  pay_rate : ℚ
  expected_weekly_hours : ℚ
  deriving DecidableEq

/-- Row of the `analytics_snapshots` table. -/
structure AnalyticsSnapshot where
  id : Nat
  teacher_id : Nat
  join_code : String
  window_type : String
  window_start : Int
  window_end : Int
  participation_rate : ℚ
  money_velocity : ℚ
  cwi_deviation_within_20pct : ℚ
  budget_survival_pass_rate : ℚ
  cwi_value : ℚ
  avg_student_balance : ℚ
  balance_trend : String
  velocity_trend : String
  participation_trend : String
  total_students : Nat
  active_students : Nat
  total_transactions : Nat
  is_complete : Bool
  deriving DecidableEq

/-- Row of the `analytics_alerts` table. -/
structure AnalyticsAlert where
  id : Nat
  teacher_id : Nat
  join_code : String
  alert_type : String
  severity : String
  what_changed : String
  why_it_matters : String
  suggested_action : String
  triggered_at : Int
  acknowledged_at : Option Int
  resolved_at : Option Int
  is_active : Bool
  deriving DecidableEq

/-- The database state visible to the engine.  The first five tables are
read-only for the engine; snapshots and alerts are read-written.
`next_snapshot_id` / `next_alert_id` model primary-key assignment. -/
structure DBState where
  students : List Student
  student_blocks : List StudentBlock
  transactions : List Transaction
  tap_events : List TapEvent
  payroll_settings : List PayrollSettings
  snapshots : List AnalyticsSnapshot
  alerts : List AnalyticsAlert
  next_snapshot_id : Nat
  next_alert_id : Nat
  deriving DecidableEq

namespace Student

/-- `Student.get_checking_balance` (`models.py`), over the student's
transaction list.  Mirrors the three branches of the source: join-code
scoping (with the legacy null-tenant/teacher-id rule), deprecated
teacher-id scoping, and the unscoped total. -/
def get_checking_balance (txs : List Transaction)
    (teacher_id : Option Nat) (join_code : Option String) : ℚ :=
  if pyTruthyStr join_code then
    round2 (((txs.filter (fun t =>
      t.account_type == "checking" && !t.is_void &&
        (t.join_code == join_code ||
          (t.join_code == none && pyTruthyNat teacher_id &&
            t.teacher_id == teacher_id)))).map (fun t => t.amount)).sum)
  else if pyTruthyNat teacher_id then
    round2 (((txs.filter (fun t =>
      t.account_type == "checking" && !t.is_void &&
        t.teacher_id == teacher_id)).map (fun t => t.amount)).sum)
  else
    round2 (((txs.filter (fun t =>
      t.account_type == "checking" && !t.is_void)).map (fun t => t.amount)).sum)

end Student

namespace AnalyticsAlert

/-- `AnalyticsAlert.acknowledge` (`models.py`): sets `acknowledged_at` to the
current time if it is not already set (Python `if not self.acknowledged_at`:
a datetime is always truthy, `None` is falsy). -/
def acknowledge (a : AnalyticsAlert) (now : Int) : AnalyticsAlert :=
  if a.acknowledged_at = none then { a with acknowledged_at := some now } else a

/-- `AnalyticsAlert.resolve` (`models.py`): sets `resolved_at` and flips
`is_active` to false if `resolved_at` is not already set. -/
def resolve (a : AnalyticsAlert) (now : Int) : AnalyticsAlert :=
  if a.resolved_at = none then
    { a with resolved_at := some now, is_active := false }
  else a

end AnalyticsAlert

/-- Modelled from the spec: the CWI (baseline) computation of
`EconomyBalanceChecker.calculate_cwi` lives in `app/utils/economy_balance.py`,
which is not among the provided sources.  The spec defines the baseline as
expected income per week, derived from the pay configuration as
rate times expected hours. -/
def EconomyBalanceChecker.calculate_cwi (ps : PayrollSettings) : ℚ :=
  ps.pay_rate * ps.expected_weekly_hours

/-- `SystemHealthMetrics` dataclass (`analytics_engine.py`). -/
structure SystemHealthMetrics where
  participation_rate : ℚ
  money_velocity : ℚ
  cwi_deviation_within_20pct : ℚ
  budget_survival_pass_rate : ℚ
  cwi_value : ℚ
  total_students : Nat
  active_students : Nat
  deriving DecidableEq

/-- `TrendMetrics` dataclass (`analytics_engine.py`). -/
structure TrendMetrics where
  balance_trend : String
  velocity_trend : String
  participation_trend : String
  deriving DecidableEq

/-- An alert proposal produced by `generate_alerts` (a Python dict with
these five keys). -/
structure AlertProposal where
  alert_type : String
  severity : String
  what_changed : String
  why_it_matters : String
  suggested_action : String
  deriving DecidableEq

namespace AnalyticsEngine

/-- `AnalyticsEngine._get_enrolled_students`: SQL join of `students` with
`student_blocks` filtered on the join code; one result row per matching
(student, block) pair. -/
def enrolled_students (st : DBState) (jc : String) : List Student :=
  st.students.flatMap (fun s =>
    (st.student_blocks.filter (fun b =>
      b.student_id == s.id && b.join_code == some jc)).map (fun _ => s))

/-- A student's `transactions` relationship: all ledger rows bearing the
student's id. -/
def student_transactions (st : DBState) (s : Student) : List Transaction :=
  st.transactions.filter (fun t => t.student_id == s.id)

/-- The payroll-settings query inside `AnalyticsEngine._get_cwi`:
`filter_by(teacher_id=...)` with `or_(block == join_code, block is None)`
and `.first()` — the first matching row in table order (the source issues no
ORDER BY). -/
def resolve_payroll_settings (st : DBState) (tid : Nat) (jc : String) :
    Option PayrollSettings :=
  (st.payroll_settings.filter (fun p =>
    p.teacher_id == tid && (p.block == some jc || p.block == none))).head?

/-- `AnalyticsEngine._get_cwi`: resolve the settings row, return 0.0 when
none is found, otherwise the CWI computed from it. -/
def _get_cwi (st : DBState) (tid : Nat) (jc : String) : ℚ :=
  match resolve_payroll_settings st tid jc with
  | none => 0
  | some ps => EconomyBalanceChecker.calculate_cwi ps

/-- The monetary-ledger window query shared by participation, velocity and
snapshot code: non-void transactions of the tenant inside [start, end). -/
def window_transactions (st : DBState) (jc : String) (ws we : Int) :
    List Transaction :=
  st.transactions.filter (fun t =>
    t.join_code == some jc && ws ≤ t.timestamp && t.timestamp < we &&
      !t.is_void)

/-- The presence-ledger window query in `calculate_participation_rate`:
tap events of the tenant inside [start, end).  Note the source applies no
`is_deleted` filter. -/
def window_tap_events (st : DBState) (jc : String) (ws we : Int) :
    List TapEvent :=
  st.tap_events.filter (fun e =>
    e.join_code == some jc && ws ≤ e.timestamp && e.timestamp < we)

/-- `AnalyticsEngine.calculate_participation_rate`: returns
(participation_rate, active_students, total_students).  The Python `set`
of active student ids is modelled by deduplicating the collected ids. -/
def calculate_participation_rate (st : DBState) (tid : Nat) (jc : String)
    (ws we : Int) : ℚ × Nat × Nat :=
  let _ := tid
  let students := enrolled_students st jc
  let total_students := students.length
  if total_students = 0 then (0, 0, 0)
  else
    let active_student_ids :=
      (((window_transactions st jc ws we).map (fun t => t.student_id)) ++
        ((window_tap_events st jc ws we).map (fun e => e.student_id))).dedup
    let active_students := active_student_ids.length
    (((active_students : ℚ) / (total_students : ℚ)) * 100,
      active_students, total_students)

/-- `timedelta.days` of `window_end - window_start` for integer-second
instants: floor division by 86400. -/
def window_days (ws we : Int) : Int := Int.fdiv (we - ws) 86400

/-- `AnalyticsEngine.calculate_money_velocity`: non-void transaction count
per student per day, days floored to a minimum of 1, rounded to 2 dp. -/
def calculate_money_velocity (st : DBState) (tid : Nat) (jc : String)
    (ws we : Int) : ℚ :=
  let _ := tid
  let students := enrolled_students st jc
  let total_students := students.length
  if total_students = 0 then 0
  else
    let transaction_count := (window_transactions st jc ws we).length
    let days := window_days ws we
    let days := if days = 0 then 1 else days
    round2 ((transaction_count : ℚ) / ((total_students : ℚ) * (days : ℚ)))

/-- `AnalyticsEngine.calculate_cwi_deviation_distribution`: percentage of
enrolled students within the ±20% band of the expected balance
`cwi * (days / 7)`, returning 0.0 when there are no students or the CWI
is 0; rounded to 1 dp. -/
def calculate_cwi_deviation_distribution (st : DBState) (tid : Nat)
    (jc : String) (ws we : Int) (cwi : ℚ) : ℚ :=
  let students := enrolled_students st jc
  let total_students := students.length
  if total_students = 0 ∨ cwi = 0 then 0
  else
    let weeks : ℚ := (window_days ws we : ℚ) / 7
    let expected_balance := cwi * weeks
    let within_band := students.countP (fun s =>
      let current_balance :=
        Student.get_checking_balance (student_transactions st s)
          (some tid) (some jc)
      if expected_balance > 0 then
        decide (|current_balance - expected_balance| / expected_balance ≤
          20 / 100)
      else decide (current_balance = 0))
    round1 (((within_band : ℚ) / (total_students : ℚ)) * 100)

/-- `AnalyticsEngine.calculate_budget_survival_pass_rate`: percentage of
enrolled students with a strictly positive checking balance, returning 0.0
when there are no students or the CWI is 0; rounded to 1 dp.  (The source
also reads a `RentSettings` row into a local that is never used; this dead
read has no observable effect and is not modelled.) -/
def calculate_budget_survival_pass_rate (st : DBState) (tid : Nat)
    (jc : String) (cwi : ℚ) : ℚ :=
  let students := enrolled_students st jc
  let total_students := students.length
  if total_students = 0 ∨ cwi = 0 then 0
  else
    let passing_students := students.countP (fun s =>
      decide (0 < Student.get_checking_balance (student_transactions st s)
        (some tid) (some jc)))
    round1 (((passing_students : ℚ) / (total_students : ℚ)) * 100)

/-- `AnalyticsEngine.calculate_trend`: trend classification of a current
value against an optional previous value with a significance threshold
(source default 0.10). -/
def calculate_trend (current_value : ℚ) (previous_value : Option ℚ)
    (threshold : ℚ) : String :=
  match previous_value with
  | none => "stable"
  | some p =>
    if p = 0 then "stable"
    else
      let change := (current_value - p) / p
      if |change| < threshold then "stable"
      else if change > 0 then "improving"
      else "worsening"

/-- `AnalyticsEngine.compute_system_health`: all health metrics for a
window. -/
def compute_system_health (st : DBState) (tid : Nat) (jc : String)
    (ws we : Int) : SystemHealthMetrics :=
  let cwi := _get_cwi st tid jc
  let p := calculate_participation_rate st tid jc ws we
  { participation_rate := p.1
    money_velocity := calculate_money_velocity st tid jc ws we
    cwi_deviation_within_20pct :=
      calculate_cwi_deviation_distribution st tid jc ws we cwi
    budget_survival_pass_rate := calculate_budget_survival_pass_rate st tid jc cwi
    cwi_value := cwi
    total_students := p.2.2
    active_students := p.2.1 }

/-- `AnalyticsEngine.compute_trends`: trend labels against the previous
snapshot (all `stable` when there is none); each call uses the source's
default threshold 0.10. -/
def compute_trends (current : SystemHealthMetrics)
    (previous : Option AnalyticsSnapshot) : TrendMetrics :=
  match previous with
  | none =>
    { balance_trend := "stable", velocity_trend := "stable",
      participation_trend := "stable" }
  | some prev =>
    { balance_trend :=
        calculate_trend current.cwi_deviation_within_20pct
          (some prev.cwi_deviation_within_20pct) (10 / 100)
      velocity_trend :=
        calculate_trend current.money_velocity (some prev.money_velocity)
          (10 / 100)
      participation_trend :=
        calculate_trend current.participation_rate
          (some prev.participation_rate) (10 / 100) }

/-- `AnalyticsEngine.generate_alerts`: threshold evaluation producing alert
proposals.  Numeric string interpolation of the source's f-strings is
rendered with `toString` on the exact rational; no statement below inspects
message text. -/
def generate_alerts (metrics : SystemHealthMetrics) (trends : TrendMetrics) :
    List AlertProposal :=
  (if metrics.participation_rate < (70 / 100) * 100 then
    [{ alert_type := "participation_low", severity := "warning"
       what_changed :=
         "Participation rate is " ++ toString metrics.participation_rate ++ "%"
       why_it_matters :=
         "Low participation may indicate students are disengaged or facing barriers"
       suggested_action :=
         "Consider: Are class schedules preventing access? Are instructions clear? Try a reminder announcement or check-in with students." }]
  else []) ++
  (if metrics.cwi_deviation_within_20pct / 100 < 1 - 20 / 100 then
    [{ alert_type := "cwi_deviation", severity := "warning"
       what_changed :=
         "Only " ++ toString metrics.cwi_deviation_within_20pct ++
           "% of students are tracking expected income"
       why_it_matters :=
         "Large deviations suggest economy settings may not match actual behavior"
       suggested_action :=
         "Review: Are wages appropriate for attendance patterns? Are expenses too high? Check the Economy Health page." }]
  else []) ++
  (if trends.velocity_trend == "worsening" then
    [{ alert_type := "velocity_drop", severity := "info"
       what_changed := "Money velocity is decreasing"
       why_it_matters :=
         "Declining activity may indicate students are hoarding or disengaged"
       suggested_action :=
         "Consider: Add new store items, host a special event, or review pricing" }]
  else []) ++
  (if metrics.budget_survival_pass_rate < 50 then
    [{ alert_type := "budget_survival_low", severity := "critical"
       what_changed :=
         "Only " ++ toString metrics.budget_survival_pass_rate ++
           "% of students have positive balances"
       why_it_matters := "Many students may be struggling with insolvency"
       suggested_action :=
         "URGENT: Review rent and expense settings. Consider temporary relief or wage adjustment." }]
  else [])

/-- The previous-snapshot query in `create_snapshot`: latest complete
snapshot of the same tenant and window type with an earlier start
(`order_by window_start desc` then `.first()`). -/
def previous_complete_snapshot (st : DBState) (jc wt : String) (ws : Int) :
    Option AnalyticsSnapshot :=
  ((st.snapshots.filter (fun s =>
    s.join_code == jc && s.window_type == wt && s.window_start < ws &&
      s.is_complete)).foldl (fun best c =>
        match best with
        | none => some c
        | some b => if c.window_start > b.window_start then some c else b)
    none)

/-- The alert row constructed and inserted by `create_snapshot` from a
proposal (`db.session.add(AnalyticsAlert(...))`; `triggered_at`,
`is_active` take their column defaults). -/
def new_alert_row (tid : Nat) (jc : String) (now : Int) (aid : Nat)
    (p : AlertProposal) : AnalyticsAlert :=
  { id := aid, teacher_id := tid, join_code := jc
    alert_type := p.alert_type, severity := p.severity
    what_changed := p.what_changed, why_it_matters := p.why_it_matters
    suggested_action := p.suggested_action
    triggered_at := now, acknowledged_at := none, resolved_at := none
    is_active := true }

/-- The alert-persistence loop of `create_snapshot`: for each proposal,
query for an active alert of the same (tenant, kind) and insert only when
none exists.  The session is autoflushed, so alerts inserted earlier in the
same loop are visible to later duplicate checks: the state threads through
the fold. -/
def apply_alert_proposals (tid : Nat) (jc : String) (now : Int)
    (props : List AlertProposal) (st : DBState) : DBState :=
  props.foldl (fun acc p =>
    if ((acc.alerts.filter (fun a =>
        a.join_code == jc && a.alert_type == p.alert_type &&
          a.is_active)).isEmpty) then
      { acc with
        alerts := acc.alerts ++ [new_alert_row tid jc now acc.next_alert_id p]
        next_alert_id := acc.next_alert_id + 1 }
    else acc) st

/-- `AnalyticsEngine.create_snapshot`: compute metrics and trends, persist
a new snapshot row, then persist the deduplicated alerts.  `now` is the
database clock used for the alert `triggered_at` defaults. -/
def create_snapshot (st : DBState) (tid : Nat) (jc : String)
    (window_type : String) (ws we : Int) (is_complete : Bool) (now : Int) :
    AnalyticsSnapshot × DBState :=
  let health_metrics := compute_system_health st tid jc ws we
  let previous_snapshot := previous_complete_snapshot st jc window_type ws
  let trends := compute_trends health_metrics previous_snapshot
  let total_transactions := (window_transactions st jc ws we).length
  let students := enrolled_students st jc
  let total_balance := (students.map (fun s =>
    Student.get_checking_balance (student_transactions st s)
      (some tid) (some jc))).sum
  let avg_balance :=
    if students.length = 0 then 0 else total_balance / (students.length : ℚ)
  let snapshot : AnalyticsSnapshot :=
    { id := st.next_snapshot_id, teacher_id := tid, join_code := jc
      window_type := window_type, window_start := ws, window_end := we
      participation_rate := health_metrics.participation_rate
      money_velocity := health_metrics.money_velocity
      cwi_deviation_within_20pct := health_metrics.cwi_deviation_within_20pct
      budget_survival_pass_rate := health_metrics.budget_survival_pass_rate
      cwi_value := health_metrics.cwi_value
      avg_student_balance := avg_balance
      balance_trend := trends.balance_trend
      velocity_trend := trends.velocity_trend
      participation_trend := trends.participation_trend
      total_students := health_metrics.total_students
      active_students := health_metrics.active_students
      total_transactions := total_transactions
      is_complete := is_complete }
  let st1 := { st with
    snapshots := st.snapshots ++ [snapshot]
    next_snapshot_id := st.next_snapshot_id + 1 }
  let alerts := generate_alerts health_metrics trends
  (snapshot, apply_alert_proposals tid jc now alerts st1)

/-- The snapshot-lookup query in `get_or_create_snapshot`: exact match on
(join code, window type, window start, window end), `.first()`. -/
def lookup_snapshot (st : DBState) (jc wt : String) (ws we : Int) :
    Option AnalyticsSnapshot :=
  (st.snapshots.filter (fun s =>
    s.join_code == jc && s.window_type == wt && s.window_start == ws &&
      s.window_end == we)).head?

/-- `AnalyticsEngine.get_or_create_snapshot`: return the cached snapshot if
one exists and is complete, otherwise compute a fresh one
(`is_complete` = window end ≤ now). -/
def get_or_create_snapshot (st : DBState) (tid : Nat) (jc : String)
    (wt : String) (ws we : Int) (now : Int) : AnalyticsSnapshot × DBState :=
  match lookup_snapshot st jc wt ws we with
  | some snapshot =>
    if snapshot.is_complete then (snapshot, st)
    else create_snapshot st tid jc wt ws we (decide (we ≤ now)) now
  | none => create_snapshot st tid jc wt ws we (decide (we ≤ now)) now

end AnalyticsEngine

/-- One engine invocation: the arguments of a `get_or_create_snapshot`
call. -/
structure SnapshotRequest where
  teacher_id : Nat
  join_code : String
  window_type : String
  window_start : Int
  window_end : Int
  now : Int
  deriving DecidableEq

/-- A sequence of sequential snapshot computations: fold the state through
successive `get_or_create_snapshot` calls. -/
def run_snapshots (reqs : List SnapshotRequest) (st : DBState) : DBState :=
  reqs.foldl (fun s r =>
    (AnalyticsEngine.get_or_create_snapshot s r.teacher_id r.join_code
      r.window_type r.window_start r.window_end r.now).2) st

/-- Two alert rows conflict when both are active with the same tenant key
and alert kind. -/
def ActiveConflict (a b : AnalyticsAlert) : Prop :=
  a.is_active = true ∧ b.is_active = true ∧ a.join_code = b.join_code ∧
    a.alert_type = b.alert_type

instance : DecidableRel ActiveConflict := fun a b => by
  unfold ActiveConflict; infer_instance

/-- At most one active alert row per (tenant key, alert kind). -/
def AtMostOneActive (alerts : List AnalyticsAlert) : Prop :=
  alerts.Pairwise (fun a b => ¬ ActiveConflict a b)

/-! ### Specification-side formulas

These render the claims' words, for comparison with the source-side
definitions above. -/

/-- Spec-side formula of claim C1: the tenant-scoped checking balance is the
sum of non-void checking amounts with the given tenant key, plus the sum of
non-void checking amounts with a null tenant key and the given owner id,
rounded to 2 decimal places. -/
def specCheckingBalanceScoped (txs : List Transaction) (jc : String)
    (tid : Nat) : ℚ :=
  round2
    ((((txs.filter (fun t =>
        t.account_type == "checking" && !t.is_void &&
          t.join_code == some jc)).map (fun t => t.amount)).sum) +
      (((txs.filter (fun t =>
        t.account_type == "checking" && !t.is_void &&
          (t.join_code == none && t.teacher_id == some tid))).map
        (fun t => t.amount)).sum))

/-- Spec-side formula of claim C10: the total non-void checking balance
across all tenants and owners, rounded to 2 decimal places. -/
def specTotalCheckingBalance (txs : List Transaction) : ℚ :=
  round2 (((txs.filter (fun t =>
    t.account_type == "checking" && !t.is_void)).map (fun t => t.amount)).sum)

/-- The set of distinct subjects with at least one non-void monetary event
or at least one presence event in the window (tenant-scoped), as the source
counts them: presence events are included regardless of `is_deleted`. -/
def specActiveSubjects (st : DBState) (jc : String) (ws we : Int) :
    Finset Nat :=
  ((AnalyticsEngine.window_transactions st jc ws we).map
      (fun t => t.student_id)).toFinset ∪
    ((AnalyticsEngine.window_tap_events st jc ws we).map
      (fun e => e.student_id)).toFinset

/-- The set of distinct active subjects as claim C5 words it: presence
events with the `is_deleted` flag set are excluded. -/
def specActiveSubjectsClaimC5 (st : DBState) (jc : String) (ws we : Int) :
    Finset Nat :=
  ((AnalyticsEngine.window_transactions st jc ws we).map
      (fun t => t.student_id)).toFinset ∪
    (((st.tap_events.filter (fun e =>
        e.join_code == some jc && ws ≤ e.timestamp && e.timestamp < we &&
          !e.is_deleted)).map (fun e => e.student_id)).toFinset)

/-- Spec-side formula of claim C5 as stated: 100 times the number of
distinct active subjects (excluding soft-deleted presence events) divided
by the number of enrolled subjects; 0 when no subject is enrolled. -/
def specParticipationRateClaim (st : DBState) (jc : String) (ws we : Int) :
    ℚ :=
  let n := (AnalyticsEngine.enrolled_students st jc).length
  if n = 0 then 0
  else 100 * ((specActiveSubjectsClaimC5 st jc ws we).card : ℚ) / (n : ℚ)

/-- Spec-side formula of claim C5 as amended: identical except that
presence events count regardless of the `is_deleted` flag, matching the
source. -/
def specParticipationRateAmended (st : DBState) (jc : String) (ws we : Int) :
    ℚ :=
  let n := (AnalyticsEngine.enrolled_students st jc).length
  if n = 0 then 0
  else 100 * ((specActiveSubjects st jc ws we).card : ℚ) / (n : ℚ)

/-- Within-band test of claim C6: relative deviation at most 20% when the
expected balance is positive, otherwise a balance of exactly 0. -/
def specWithinBand (balance expected : ℚ) : Bool :=
  if 0 < expected then decide (|balance - expected| / expected ≤ 20 / 100)
  else decide (balance = 0)

/-- Spec-side formula of claim C6 as stated: percentage of enrolled
subjects within band, rounded to 1 decimal place, with expected balance
baseline times (window-days / 7); 0 when no subject is enrolled. -/
def specDeviationClaim (st : DBState) (tid : Nat) (jc : String)
    (ws we : Int) (cwi : ℚ) : ℚ :=
  let students := AnalyticsEngine.enrolled_students st jc
  let n := students.length
  if n = 0 then 0
  else
    let expected := cwi * ((AnalyticsEngine.window_days ws we : ℚ) / 7)
    round1 (100 * ((students.countP (fun s =>
      specWithinBand
        (Student.get_checking_balance
          (AnalyticsEngine.student_transactions st s) (some tid) (some jc))
        expected) : ℚ)) / (n : ℚ))

/-- Spec-side formula of claim C6 as amended: the source returns 0.0
whenever the baseline is 0, so the everyone-at-0-is-within-band degradation
only applies to a nonzero baseline with a non-positive expected balance. -/
def specDeviationAmended (st : DBState) (tid : Nat) (jc : String)
    (ws we : Int) (cwi : ℚ) : ℚ :=
  if cwi = 0 then 0 else specDeviationClaim st tid jc ws we cwi

/-- Spec-side formula of claim C7 as stated: percentage of enrolled
subjects with a strictly positive tenant-scoped checking balance, rounded
to 1 decimal place; 0 when no subject is enrolled. -/
def specSolvencyClaim (st : DBState) (tid : Nat) (jc : String) : ℚ :=
  let students := AnalyticsEngine.enrolled_students st jc
  let n := students.length
  if n = 0 then 0
  else
    round1 (100 * ((students.countP (fun s =>
      decide (0 < Student.get_checking_balance
        (AnalyticsEngine.student_transactions st s) (some tid) (some jc))) :
        ℚ)) / (n : ℚ))

/-! ### Concrete states used by witnesses and counterexamples -/

/-- An empty database. -/
def emptyDB : DBState :=
  { students := [], student_blocks := [], transactions := [], tap_events := []
    payroll_settings := [], snapshots := [], alerts := []
    next_snapshot_id := 1, next_alert_id := 1 }

/-- An owner-global pay-configuration row (block null), stored first. -/
def psGlobal : PayrollSettings :=
  { id := 1, teacher_id := 1, block := none, pay_rate := 5
    expected_weekly_hours := 1 }

/-- A tenant-specific pay-configuration row for tenant "A", stored second. -/
def psTenantA : PayrollSettings :=
  { id := 2, teacher_id := 1, block := some "A", pay_rate := 10
    expected_weekly_hours := 1 }

/-- Database with both pay-configuration rows, the global one first. -/
def dbC2 : DBState := { emptyDB with payroll_settings := [psGlobal, psTenantA] }

/-- Database for the C5 counterexample: one student enrolled in tenant "A"
whose only activity in the window is a soft-deleted tap event. -/
def dbC5 : DBState :=
  { emptyDB with
    students := [{ id := 1 }]
    student_blocks := [{ student_id := 1, join_code := some "A" }]
    tap_events :=
      [{ student_id := 1, join_code := some "A", timestamp := 50
         is_deleted := true }] }

/-- Database for the C6 counterexample: one student enrolled in tenant "A"
with no transactions (balance exactly 0). -/
def dbC6 : DBState :=
  { emptyDB with
    students := [{ id := 1 }]
    student_blocks := [{ student_id := 1, join_code := some "A" }] }

/-- Database for the C7 counterexample and witness: one student enrolled in
tenant "A" with a positive checking balance. -/
def dbC7 : DBState :=
  { emptyDB with
    students := [{ id := 1 }]
    student_blocks := [{ student_id := 1, join_code := some "A" }]
    transactions :=
      [{ student_id := 1, teacher_id := some 1, join_code := some "A"
         amount := 5, timestamp := 10, account_type := "checking"
         is_void := false }] }

/-- A stored complete snapshot for tenant "A" covering [0, 604800). -/
def snapC3 : AnalyticsSnapshot :=
  { id := 7, teacher_id := 1, join_code := "A", window_type := "week"
    window_start := 0, window_end := 604800
    participation_rate := 50, money_velocity := 1 / 10
    cwi_deviation_within_20pct := 80, budget_survival_pass_rate := 60
    cwi_value := 5, avg_student_balance := 12
    balance_trend := "stable", velocity_trend := "stable"
    participation_trend := "stable"
    total_students := 4, active_students := 2, total_transactions := 3
    is_complete := true }

/-- Database holding the complete snapshot `snapC3`. -/
def dbC3 : DBState := { emptyDB with snapshots := [snapC3], next_snapshot_id := 8 }

/-- Transactions for the C1 witness: a tenant-"A" event, a legacy
null-tenant event with matching owner 1, a legacy null-tenant event with
non-matching owner 2, and a voided tenant-"A" event. -/
def txsC1 : List Transaction :=
  [{ student_id := 1, teacher_id := some 1, join_code := some "A"
     amount := 3, timestamp := 0, account_type := "checking"
     is_void := false },
   { student_id := 1, teacher_id := some 1, join_code := none
     amount := 2, timestamp := 1, account_type := "checking"
     is_void := false },
   { student_id := 1, teacher_id := some 2, join_code := none
     amount := 7, timestamp := 2, account_type := "checking"
     is_void := false },
   { student_id := 1, teacher_id := some 1, join_code := some "A"
     amount := 100, timestamp := 3, account_type := "checking"
     is_void := true }]

/-- An already-acknowledged, already-resolved alert row. -/
def alertSettled : AnalyticsAlert :=
  { id := 1, teacher_id := 1, join_code := "A"
    alert_type := "participation_low", severity := "warning"
    what_changed := "w", why_it_matters := "m", suggested_action := "s"
    triggered_at := 0, acknowledged_at := some 5, resolved_at := some 6
    is_active := false }

/-- A fresh, unacknowledged, unresolved active alert row. -/
def alertFresh : AnalyticsAlert :=
  { id := 2, teacher_id := 1, join_code := "A"
    alert_type := "cwi_deviation", severity := "warning"
    what_changed := "w", why_it_matters := "m", suggested_action := "s"
    triggered_at := 0, acknowledged_at := none, resolved_at := none
    is_active := true }

/-- A single snapshot request for the C4 witness. -/
def reqC4 : SnapshotRequest :=
  { teacher_id := 1, join_code := "A", window_type := "week"
    window_start := 0, window_end := 604800, now := 700000 }

/-! ## Theorems -/

/-- Helper: a sum over a filter by a disjunction of two mutually exclusive
predicates splits into the two separate filtered sums. -/
theorem sum_filter_disjoint (f : Transaction → ℚ) (p q : Transaction → Bool)
    (h : ∀ t, ¬(p t = true ∧ q t = true)) (l : List Transaction) :
    (((l.filter (fun t => p t || q t)).map f).sum : ℚ) =
      ((l.filter p).map f).sum + ((l.filter q).map f).sum := by
  induction l with
  | nil => simp
  | cons t l ih =>
    cases hp : p t
    · cases hq : q t
      · simpa [List.filter_cons, hp, hq] using ih
      · simp [List.filter_cons, hp, hq, ih]
        ring
    · cases hq : q t
      · simp [List.filter_cons, hp, hq, ih]
        ring
      · exact absurd ⟨hp, hq⟩ (h t)

/-- Claim C1: for every student, tenant key and (nonzero, as database ids
are) owner id, the tenant-scoped checking balance equals the sum of the
non-void checking amounts whose tenant key matches, plus those with a null
tenant key and a matching owner id, rounded to 2 decimal places; voided
and non-matching null-tenant events contribute nothing. -/
theorem checking_balance_tenant_scoped (txs : List Transaction) (jc : String)
    (tid : Nat) (hjc : jc ≠ "") (htid : tid ≠ 0) :
    Student.get_checking_balance txs (some tid) (some jc) =
      specCheckingBalanceScoped txs jc tid := by
  have hjc' : pyTruthyStr (some jc) = true := by simp [pyTruthyStr, hjc]
  have htid' : pyTruthyNat (some tid) = true := by simp [pyTruthyNat, htid]
  rw [Student.get_checking_balance, specCheckingBalanceScoped]
  rw [if_pos hjc']
  simp only [htid', Bool.true_and, Bool.and_true]
  simp only [Bool.and_or_distrib_left]
  rw [sum_filter_disjoint]
  intro t ⟨h1, h2⟩
  simp only [Bool.and_eq_true, beq_iff_eq] at h1 h2
  exact Option.noConfusion ((h1.2).symm.trans h2.2.1)

/-- Witness for C1: the theorem applied to the four-transaction list
`txsC1` with tenant key "A" and owner id 1. -/
theorem checking_balance_tenant_scoped_witness :
    "A" ≠ "" ∧ 1 ≠ 0 ∧
    Student.get_checking_balance txsC1 (some 1) (some "A") =
      specCheckingBalanceScoped txsC1 "A" 1 :=
  ⟨by decide, by decide,
    checking_balance_tenant_scoped txsC1 "A" 1 (by decide) (by decide)⟩

/-- Claim C10: with neither a tenant key nor an owner id, the accessor
returns the total non-void checking balance across all tenants and owners;
no tenant-isolation filter is applied. -/
theorem checking_balance_unscoped_totals (txs : List Transaction) :
    Student.get_checking_balance txs none none = specTotalCheckingBalance txs :=
  rfl

/-- Claim C2 (failing-input evaluation): with an owner-global settings row
stored before the tenant-specific row, the resolution query returns the
global row — the tenant-specific row is present but not preferred, and the
baseline comes from the global row (5, not the tenant row's 10).  The
final conjunct records the graceful degradation to 0 when no row exists. -/
theorem cwi_resolution_takes_first_matching_row :
    AnalyticsEngine.resolve_payroll_settings dbC2 1 "A" = some psGlobal ∧
    psGlobal.block = none ∧
    psTenantA ∈ dbC2.payroll_settings ∧
    psTenantA.block = some "A" ∧ psTenantA.teacher_id = 1 ∧
    AnalyticsEngine._get_cwi dbC2 1 "A" =
      EconomyBalanceChecker.calculate_cwi psGlobal ∧
    EconomyBalanceChecker.calculate_cwi psGlobal = 5 ∧
    EconomyBalanceChecker.calculate_cwi psTenantA = 10 ∧
    AnalyticsEngine._get_cwi emptyDB 1 "A" = 0 := by
  refine ⟨rfl, rfl, ?_, rfl, rfl, rfl, ?_, ?_, rfl⟩
  · simp [dbC2, emptyDB]
  · norm_num [EconomyBalanceChecker.calculate_cwi, psGlobal]
  · norm_num [EconomyBalanceChecker.calculate_cwi, psTenantA]

/-- Claim C3: when the snapshot lookup finds a stored snapshot with
`complete` true, `get_or_create_snapshot` returns that stored row itself
and leaves the state unchanged (no new snapshot rows, no new alert rows);
a second call with identical arguments returns the same row. -/
theorem snapshot_cache_hit_returns_stored_row (st : DBState) (tid : Nat)
    (jc wt : String) (ws we now now2 : Int) (s : AnalyticsSnapshot)
    (hfound : AnalyticsEngine.lookup_snapshot st jc wt ws we = some s)
    (hcomplete : s.is_complete = true) :
    AnalyticsEngine.get_or_create_snapshot st tid jc wt ws we now = (s, st) ∧
    AnalyticsEngine.get_or_create_snapshot st tid jc wt ws we now2 = (s, st) := by
  constructor <;>
    (simp only [AnalyticsEngine.get_or_create_snapshot]; rw [hfound];
      simp [hcomplete])

/-- Witness for C3: the theorem applied to the database `dbC3` holding the
complete snapshot `snapC3`. -/
theorem snapshot_cache_hit_witness :
    AnalyticsEngine.get_or_create_snapshot dbC3 1 "A" "week" 0 604800 1000000 =
      (snapC3, dbC3) :=
  (snapshot_cache_hit_returns_stored_row dbC3 1 "A" "week" 0 604800 1000000 999
    snapC3 rfl rfl).1

/-- Helper: when the duplicate-check query returns nothing, no stored alert
is active with the given tenant key and kind. -/
theorem filter_empty_no_conflict (alerts : List AnalyticsAlert)
    (jc atype : String)
    (h : (alerts.filter (fun a =>
      a.join_code == jc && a.alert_type == atype && a.is_active)).isEmpty =
      true) :
    ∀ a ∈ alerts, ¬(a.is_active = true ∧ a.join_code = jc ∧
      a.alert_type = atype) := by
  intro a ha ⟨hact, hjc, hty⟩
  rw [List.isEmpty_iff] at h
  exact absurd (by simp [hjc, hty, hact]) (List.filter_eq_nil_iff.mp h a ha)

/-- Helper: the alert-persistence loop preserves the at-most-one-active
invariant and only appends rows, never modifying existing ones. -/
theorem apply_alert_proposals_invariant (tid : Nat) (jc : String) (now : Int)
    (props : List AlertProposal) :
    ∀ st : DBState, AtMostOneActive st.alerts →
      AtMostOneActive
        (AnalyticsEngine.apply_alert_proposals tid jc now props st).alerts ∧
      ∃ added,
        (AnalyticsEngine.apply_alert_proposals tid jc now props st).alerts =
          st.alerts ++ added := by
  induction props with
  | nil => exact fun st h => ⟨h, [], by simp [AnalyticsEngine.apply_alert_proposals]⟩
  | cons p ps ih =>
    intro st h
    by_cases hdup : ((st.alerts.filter (fun a =>
        a.join_code == jc && a.alert_type == p.alert_type &&
          a.is_active)).isEmpty) = true
    · have hcons : AnalyticsEngine.apply_alert_proposals tid jc now (p :: ps) st =
          AnalyticsEngine.apply_alert_proposals tid jc now ps
            { st with
              alerts := st.alerts ++
                [AnalyticsEngine.new_alert_row tid jc now st.next_alert_id p]
              next_alert_id := st.next_alert_id + 1 } := by
        rw [AnalyticsEngine.apply_alert_proposals,
          AnalyticsEngine.apply_alert_proposals]
        rw [List.foldl_cons, if_pos hdup]
      rw [hcons]
      have hmid : AtMostOneActive (st.alerts ++
          [AnalyticsEngine.new_alert_row tid jc now st.next_alert_id p]) := by
        rw [AtMostOneActive, List.pairwise_append]
        refine ⟨h, List.pairwise_singleton _ _, ?_⟩
        intro a ha b hb
        simp only [List.mem_singleton] at hb
        subst hb
        intro ⟨hact, hactn, hjcn, htyn⟩
        simp only [AnalyticsEngine.new_alert_row] at hjcn htyn
        exact filter_empty_no_conflict st.alerts jc p.alert_type hdup a ha
          ⟨hact, hjcn, htyn⟩
      obtain ⟨h2, add2, e2⟩ := ih { st with
          alerts := st.alerts ++
            [AnalyticsEngine.new_alert_row tid jc now st.next_alert_id p]
          next_alert_id := st.next_alert_id + 1 } hmid
      refine ⟨h2, [AnalyticsEngine.new_alert_row tid jc now st.next_alert_id p] ++
        add2, ?_⟩
      rw [e2]
      simp
    · have hcons : AnalyticsEngine.apply_alert_proposals tid jc now (p :: ps) st =
          AnalyticsEngine.apply_alert_proposals tid jc now ps st := by
        rw [AnalyticsEngine.apply_alert_proposals,
          AnalyticsEngine.apply_alert_proposals]
        rw [List.foldl_cons, if_neg hdup]
      rw [hcons]
      exact ih st h

/-- Helper: `create_snapshot` preserves the invariant — it only touches the
alert table through the deduplicating persistence loop. -/
theorem create_snapshot_alert_invariant (st : DBState) (tid : Nat)
    (jc wt : String) (ws we : Int) (ic : Bool) (now : Int)
    (h : AtMostOneActive st.alerts) :
    AtMostOneActive
      (AnalyticsEngine.create_snapshot st tid jc wt ws we ic now).2.alerts ∧
    ∃ added,
      (AnalyticsEngine.create_snapshot st tid jc wt ws we ic now).2.alerts =
        st.alerts ++ added :=
  apply_alert_proposals_invariant tid jc now _ _ h

/-- Helper: `get_or_create_snapshot` preserves the invariant (cache hit
changes nothing, cache miss goes through `create_snapshot`). -/
theorem get_or_create_alert_invariant (st : DBState) (tid : Nat)
    (jc wt : String) (ws we now : Int) (h : AtMostOneActive st.alerts) :
    AtMostOneActive
      (AnalyticsEngine.get_or_create_snapshot st tid jc wt ws we now).2.alerts ∧
    ∃ added,
      (AnalyticsEngine.get_or_create_snapshot st tid jc wt ws we now).2.alerts =
        st.alerts ++ added := by
  rw [AnalyticsEngine.get_or_create_snapshot]
  cases hl : AnalyticsEngine.lookup_snapshot st jc wt ws we with
  | none => exact create_snapshot_alert_invariant st tid jc wt ws we _ now h
  | some s =>
    by_cases hc : s.is_complete
    · simp only [hc, if_true]
      exact ⟨h, [], by simp⟩
    · simp only [hc, if_false, Bool.false_eq_true]
      exact create_snapshot_alert_invariant st tid jc wt ws we _ now h

/-- Claim C4: after every sequence of sequential snapshot computations
starting from a state with at most one active alert per (tenant, kind),
that invariant still holds, and the previously stored alert rows are
unmodified (the alert table only ever grows by appended rows: a proposal
whose (tenant, kind) already has an active alert persists nothing). -/
theorem alert_dedup_invariant (reqs : List SnapshotRequest) (st : DBState)
    (h : AtMostOneActive st.alerts) :
    AtMostOneActive (run_snapshots reqs st).alerts ∧
    ∃ added, (run_snapshots reqs st).alerts = st.alerts ++ added := by
  induction reqs generalizing st with
  | nil => exact ⟨h, [], by simp [run_snapshots]⟩
  | cons r rs ih =>
    obtain ⟨h1, add1, e1⟩ := get_or_create_alert_invariant st r.teacher_id
      r.join_code r.window_type r.window_start r.window_end r.now h
    obtain ⟨h2, add2, e2⟩ := ih _ h1
    refine ⟨h2, add1 ++ add2, ?_⟩
    rw [show run_snapshots (r :: rs) st = run_snapshots rs
      ((AnalyticsEngine.get_or_create_snapshot st r.teacher_id r.join_code
        r.window_type r.window_start r.window_end r.now).2) from rfl]
    rw [e2, e1, List.append_assoc]

/-- Witness for C4: one snapshot computation on the empty database (which
trivially satisfies the invariant). -/
theorem alert_dedup_invariant_witness :
    AtMostOneActive (run_snapshots [reqC4] emptyDB).alerts ∧
    ∃ added, (run_snapshots [reqC4] emptyDB).alerts = emptyDB.alerts ++ added :=
  alert_dedup_invariant [reqC4] emptyDB List.Pairwise.nil

/-- Counterexample to claim C5 as stated: one enrolled student whose only
window activity is a soft-deleted tap event.  The source counts the
deleted presence event (rate 100), while the claim's formula excludes it
(rate 0). -/
theorem participation_deleted_tap_counterexample :
    (AnalyticsEngine.calculate_participation_rate dbC5 1 "A" 0 100).1 = 100 ∧
    specParticipationRateClaim dbC5 "A" 0 100 = 0 := by
  constructor
  · norm_num [AnalyticsEngine.calculate_participation_rate,
      AnalyticsEngine.enrolled_students, AnalyticsEngine.window_transactions,
      AnalyticsEngine.window_tap_events, dbC5, emptyDB]
  · norm_num [specParticipationRateClaim, specActiveSubjectsClaimC5,
      AnalyticsEngine.enrolled_students, AnalyticsEngine.window_transactions,
      AnalyticsEngine.window_tap_events, dbC5, emptyDB]

/-- Claim C5 as amended: the participation rate equals 100 times the number
of distinct subjects with at least one non-void monetary event or at least
one presence event in the window (presence events counted regardless of
their soft-delete flag), divided by the number of enrolled subjects; 0.0
with zero enrolled subjects and never a division error. -/
theorem participation_rate_formula (st : DBState) (tid : Nat) (jc : String)
    (ws we : Int) :
    (AnalyticsEngine.calculate_participation_rate st tid jc ws we).1 =
      specParticipationRateAmended st jc ws we := by
  rw [AnalyticsEngine.calculate_participation_rate,
    specParticipationRateAmended]
  by_cases h : (AnalyticsEngine.enrolled_students st jc).length = 0
  · simp [h]
  · simp only [h, if_false, if_neg h]
    rw [specActiveSubjects]
    rw [← List.toFinset_append, List.card_toFinset]
    ring

/-- Counterexample to claim C6 as stated: with a zero baseline and one
enrolled student at balance exactly 0, the source returns 0.0 while the
claim counts the student as within band (100.0). -/
theorem cwi_deviation_zero_baseline_counterexample :
    AnalyticsEngine.calculate_cwi_deviation_distribution dbC6 1 "A" 0 604800 0 =
      0 ∧
    specDeviationClaim dbC6 1 "A" 0 604800 0 = 100 := by
  constructor
  · norm_num [AnalyticsEngine.calculate_cwi_deviation_distribution,
      AnalyticsEngine.enrolled_students, dbC6, emptyDB]
  · norm_num [specDeviationClaim, specWithinBand,
      AnalyticsEngine.enrolled_students, AnalyticsEngine.student_transactions,
      AnalyticsEngine.window_days, Student.get_checking_balance, pyTruthyStr,
      pyTruthyNat, round2, round1, round_eq, dbC6, emptyDB]

/-- Claim C6 as amended: when the baseline is 0 (or no subject is enrolled)
the metric is 0.0 regardless of balances; for a nonzero baseline it is the
percentage of enrolled subjects within band rounded to 1 decimal place,
where a subject is within band iff the relative deviation is at most 20%
when the expected balance is positive, else iff the balance is exactly 0;
no division by zero occurs. -/
theorem cwi_deviation_formula (st : DBState) (tid : Nat) (jc : String)
    (ws we : Int) (cwi : ℚ) :
    AnalyticsEngine.calculate_cwi_deviation_distribution st tid jc ws we cwi =
      specDeviationAmended st tid jc ws we cwi := by
  rw [AnalyticsEngine.calculate_cwi_deviation_distribution,
    specDeviationAmended, specDeviationClaim]
  by_cases hc : cwi = 0
  · simp [hc]
  · by_cases hn : (AnalyticsEngine.enrolled_students st jc).length = 0
    · simp [hc, hn]
    · simp only [hc, hn, or_false, false_or, if_false, if_neg hn, if_neg hc]
      simp only [specWithinBand, gt_iff_lt]
      congr 1
      ring

/-- Counterexample to claim C7 as stated: with a zero baseline and one
enrolled student with a positive balance, the source returns 0.0 while the
claim requires 100.0. -/
theorem budget_survival_zero_baseline_counterexample :
    AnalyticsEngine.calculate_budget_survival_pass_rate dbC7 1 "A" 0 = 0 ∧
    specSolvencyClaim dbC7 1 "A" = 100 := by
  constructor
  · norm_num [AnalyticsEngine.calculate_budget_survival_pass_rate,
      AnalyticsEngine.enrolled_students, dbC7, emptyDB]
  · norm_num [specSolvencyClaim, AnalyticsEngine.enrolled_students,
      AnalyticsEngine.student_transactions, Student.get_checking_balance,
      pyTruthyStr, pyTruthyNat, round2, round1, round_eq, dbC7, emptyDB]

/-- Claim C7 as amended: for every nonzero baseline the solvency pass rate
equals the percentage of enrolled subjects with a strictly positive
tenant-scoped balance, rounded to 1 decimal place (0.0 with zero enrolled
subjects); when the baseline is 0 the source returns 0.0 instead. -/
theorem budget_survival_formula (st : DBState) (tid : Nat) (jc : String)
    (cwi : ℚ) (hcwi : cwi ≠ 0) :
    AnalyticsEngine.calculate_budget_survival_pass_rate st tid jc cwi =
      specSolvencyClaim st tid jc := by
  rw [AnalyticsEngine.calculate_budget_survival_pass_rate, specSolvencyClaim]
  by_cases hn : (AnalyticsEngine.enrolled_students st jc).length = 0
  · simp [hn, hcwi]
  · simp only [hn, hcwi, or_false, false_or, if_false, if_neg hn]
    congr 1
    ring

/-- Witness for C7 (amended): the theorem applied to `dbC7` with the
nonzero baseline 5. -/
theorem budget_survival_formula_witness :
    AnalyticsEngine.calculate_budget_survival_pass_rate dbC7 1 "A" 5 =
      specSolvencyClaim dbC7 1 "A" :=
  budget_survival_formula dbC7 1 "A" 5 (by norm_num)

/-- Helper: for a nonzero previous value the source trend computation is
the threshold-guarded two-way branch on the relative change. -/
theorem trend_code_shape (cur p thr : ℚ) (hp : p ≠ 0) :
    AnalyticsEngine.calculate_trend cur (some p) thr =
      (if |(cur - p) / p| < thr then "stable"
       else if (cur - p) / p > 0 then "improving" else "worsening") := by
  rw [AnalyticsEngine.calculate_trend]
  simp [hp]

/-- Claim C8: the trend classification is `stable` when the previous value
is absent or zero or the relative change is strictly below the (positive)
threshold, `improving` when the change is positive and at least the
threshold in magnitude, `worsening` when it is negative and at least the
threshold in magnitude; and the four literal pairs from the specification
evaluate as stated at the default threshold 10%. -/
theorem trend_classification (cur p thr : ℚ) (hthr : 0 < thr) (hp : p ≠ 0) :
    (AnalyticsEngine.calculate_trend cur none thr = "stable" ∧
      AnalyticsEngine.calculate_trend cur (some 0) thr = "stable") ∧
    (AnalyticsEngine.calculate_trend cur (some p) thr = "stable" ↔
      |(cur - p) / p| < thr) ∧
    (AnalyticsEngine.calculate_trend cur (some p) thr = "improving" ↔
      (0 < (cur - p) / p ∧ thr ≤ (cur - p) / p)) ∧
    (AnalyticsEngine.calculate_trend cur (some p) thr = "worsening" ↔
      ((cur - p) / p < 0 ∧ thr ≤ |(cur - p) / p|)) ∧
    AnalyticsEngine.calculate_trend 100 (some 80) (10 / 100) = "improving" ∧
    AnalyticsEngine.calculate_trend 80 (some 100) (10 / 100) = "worsening" ∧
    AnalyticsEngine.calculate_trend 100 (some 98) (10 / 100) = "stable" ∧
    AnalyticsEngine.calculate_trend 100 none (10 / 100) = "stable" := by
  refine ⟨⟨rfl, by rw [AnalyticsEngine.calculate_trend]; simp⟩,
    ?_, ?_, ?_, ?_, ?_, ?_, rfl⟩
  · rw [trend_code_shape cur p thr hp]
    by_cases habs : |(cur - p) / p| < thr
    · simp [habs]
    · rw [if_neg habs]
      apply iff_of_false _ habs
      by_cases hc : (cur - p) / p > 0
      · rw [if_pos hc]; decide
      · rw [if_neg hc]; decide
  · rw [trend_code_shape cur p thr hp]
    by_cases habs : |(cur - p) / p| < thr
    · rw [if_pos habs]
      apply iff_of_false (by decide)
      rintro ⟨h1, h2⟩
      exact absurd habs (not_lt.mpr (h2.trans (le_abs_self _)))
    · rw [if_neg habs]
      by_cases hc : (cur - p) / p > 0
      · rw [if_pos hc]
        exact iff_of_true rfl
          ⟨hc, by rw [abs_of_pos hc] at habs; exact not_lt.mp habs⟩
      · rw [if_neg hc]
        apply iff_of_false (by decide)
        rintro ⟨h1, h2⟩
        exact hc h1
  · rw [trend_code_shape cur p thr hp]
    by_cases habs : |(cur - p) / p| < thr
    · rw [if_pos habs]
      apply iff_of_false (by decide)
      rintro ⟨h1, h2⟩
      exact absurd habs (not_lt.mpr h2)
    · rw [if_neg habs]
      by_cases hc : (cur - p) / p > 0
      · rw [if_pos hc]
        apply iff_of_false (by decide)
        rintro ⟨h1, h2⟩
        exact absurd hc (not_lt.mpr h1.le)
      · rw [if_neg hc]
        apply iff_of_true rfl
        have hc0 : (cur - p) / p ≤ 0 := not_lt.mp hc
        have habs' : thr ≤ |(cur - p) / p| := not_lt.mp habs
        refine ⟨?_, habs'⟩
        rcases lt_or_eq_of_le hc0 with h | h
        · exact h
        · exfalso
          rw [h] at habs'
          simp at habs'
          exact absurd habs' (not_le.mpr hthr)
  · rw [trend_code_shape 100 80 (10 / 100) (by norm_num)]
    norm_num
    rw [show |(1 : ℚ) / 4| = 1 / 4 from abs_of_nonneg (by norm_num)]
    norm_num
  · rw [trend_code_shape 80 100 (10 / 100) (by norm_num)]
    norm_num
    rw [show |(1 : ℚ) / 5| = 1 / 5 from abs_of_nonneg (by norm_num)]
    norm_num
  · rw [trend_code_shape 100 98 (10 / 100) (by norm_num)]
    norm_num
    rw [show |(1 : ℚ) / 49| = 1 / 49 from abs_of_nonneg (by norm_num)]
    norm_num

/-- Witness for C8: the characterization instantiated at the literal pair
(100, 80) with the default threshold. -/
theorem trend_classification_witness :
    AnalyticsEngine.calculate_trend 100 (some 80) (10 / 100) = "improving" ∧
    AnalyticsEngine.calculate_trend 100 none (10 / 100) = "stable" :=
  ⟨(trend_classification 100 80 (10 / 100) (by norm_num)
      (by norm_num)).2.2.2.2.1,
   (trend_classification 100 80 (10 / 100) (by norm_num)
      (by norm_num)).2.2.2.2.2.2.2⟩

/-- Claim C9: acknowledge and resolve are idempotent no-ops on an
already-acknowledged resp. already-resolved alert; acknowledge sets only
the acknowledged-at timestamp (active flag and all other fields
unchanged); resolve sets resolved-at and flips active to false. -/
theorem alert_ack_resolve_idempotent_frame (a : AnalyticsAlert) (t u : Int) :
    (a.acknowledged_at ≠ none → AnalyticsAlert.acknowledge a t = a) ∧
    (a.resolved_at ≠ none → AnalyticsAlert.resolve a t = a) ∧
    AnalyticsAlert.acknowledge (AnalyticsAlert.acknowledge a t) u =
      AnalyticsAlert.acknowledge a t ∧
    AnalyticsAlert.resolve (AnalyticsAlert.resolve a t) u =
      AnalyticsAlert.resolve a t ∧
    (AnalyticsAlert.acknowledge a t).is_active = a.is_active ∧
    (AnalyticsAlert.acknowledge a t).resolved_at = a.resolved_at ∧
    (AnalyticsAlert.acknowledge a t).alert_type = a.alert_type ∧
    (AnalyticsAlert.acknowledge a t).join_code = a.join_code ∧
    (AnalyticsAlert.acknowledge a t).severity = a.severity ∧
    (AnalyticsAlert.acknowledge a t).triggered_at = a.triggered_at ∧
    (AnalyticsAlert.resolve a t).acknowledged_at = a.acknowledged_at ∧
    (AnalyticsAlert.resolve a t).alert_type = a.alert_type ∧
    (AnalyticsAlert.resolve a t).join_code = a.join_code ∧
    (a.acknowledged_at = none →
      (AnalyticsAlert.acknowledge a t).acknowledged_at = some t) ∧
    (a.resolved_at = none →
      (AnalyticsAlert.resolve a t).resolved_at = some t ∧
        (AnalyticsAlert.resolve a t).is_active = false) := by
  cases hack : a.acknowledged_at <;> cases hres : a.resolved_at <;>
    simp [AnalyticsAlert.acknowledge, AnalyticsAlert.resolve, hack, hres]

/-- Witness for C9: the theorem applied to the already-settled alert row
`alertSettled`. -/
theorem alert_ack_resolve_witness :
    AnalyticsAlert.acknowledge alertSettled 9 = alertSettled ∧
    AnalyticsAlert.resolve alertSettled 9 = alertSettled :=
  ⟨(alert_ack_resolve_idempotent_frame alertSettled 9 9).1 (by decide),
   (alert_ack_resolve_idempotent_frame alertSettled 9 9).2.1 (by decide)⟩
